import Mathlib

/-!
Verification of the morpho backend's core components against its
specification: the admission controller (rate limiter), the content cache,
the session ledger, the transformation pipeline (edit handler), and the
template usage/popularity aggregates.

All definitions are shallow embeddings of the TypeScript source.  JS `Map`
objects are modelled as association lists in insertion order (updating an
existing key keeps its position; a new key is appended), `Date.now()` is an
explicit `Nat` millisecond parameter, and JS numbers used in averages and
scores are modelled as rationals.
-/

namespace Morpho

/-! ## JS `Map` model -/

/-- `Map.get`: the value stored at `k`, if any. -/
def mapGet {β : Type} (m : List (String × β)) (k : String) : Option β :=
  match m with
  | [] => none
  | (k', v) :: rest => if k' = k then some v else mapGet rest k

/-- `Map.set`: update an existing key in place (keeping insertion order),
else append the new binding. -/
def mapSet {β : Type} (m : List (String × β)) (k : String) (v : β) :
    List (String × β) :=
  match m with
  | [] => [(k, v)]
  | (k', v') :: rest =>
    if k' = k then (k, v) :: rest else (k', v') :: mapSet rest k v

/-- `Map.delete`: remove the binding for `k` (keys are unique in a `Map`,
so removing the first occurrence is exact). -/
def mapDelete {β : Type} (m : List (String × β)) (k : String) :
    List (String × β) :=
  match m with
  | [] => []
  | (k', v') :: rest => if k' = k then rest else (k', v') :: mapDelete rest k

/-! ## Admission controller: `RateLimiter` (rateLimiter middleware source) -/

/-- `RateLimitConfig` from the rate-limiter middleware: a window length in
milliseconds and a maximum request count per window. -/
structure RateLimitConfig where
  windowMs : Nat
  maxRequests : Nat
  deriving Repr, DecidableEq

/-- `RateLimitEntry`: the per-key fixed window. -/
structure RateLimitEntry where
  count : Nat
  resetTime : Nat
  deriving Repr, DecidableEq

/-- The rate limiter's `store : Map<string, RateLimitEntry>`. -/
abbrev RLStore := List (String × RateLimitEntry)

/-- `RateLimiter.isAllowed(key, config)` at time `now`: returns the boolean
decision and the updated store. -/
def isAllowed (s : RLStore) (key : String) (config : RateLimitConfig)
    (now : Nat) : Bool × RLStore :=
  match mapGet s key with
  | none => (true, mapSet s key ⟨1, now + config.windowMs⟩)
  | some entry =>
    if entry.resetTime < now then
      (true, mapSet s key ⟨1, now + config.windowMs⟩)
    else if entry.count ≥ config.maxRequests then
      (false, s)
    else
      (true, mapSet s key ⟨entry.count + 1, entry.resetTime⟩)

/-- `RateLimiter.getRemainingRequests` on a given store state. -/
def getRemainingRequests (s : RLStore) (key : String)
    (config : RateLimitConfig) (now : Nat) : Nat :=
  match mapGet s key with
  | none => config.maxRequests
  | some entry =>
    if entry.resetTime < now then config.maxRequests
    else config.maxRequests - entry.count

/-- `RateLimiter.getResetTime` on a given store state. -/
def getResetTime (s : RLStore) (key : String) (now : Nat) : Nat :=
  match mapGet s key with
  | none => now
  | some entry => entry.resetTime

/-- Outcome of one pass through `RateLimiter.middleware`: either the request
proceeds (with the remaining-quota and reset-time response metadata), or a
429 denial is sent carrying `retryAfter` (whole seconds, rounded up) and the
reset time. -/
inductive MWOutcome where
  | allowed (remaining : Nat) (resetTime : Nat)
  | denied (retryAfter : Nat) (resetTime : Nat)
  deriving Repr, DecidableEq

/-- One request through `RateLimiter.middleware(config)` at time `now`:
runs `isAllowed`; on denial computes
`retryAfter = Math.ceil((resetTime - now) / 1000)` (seconds) and responds
429 without calling `next()`; on allowance emits remaining and reset
headers.  Returns the outcome and the updated store. -/
def middlewareStep (s : RLStore) (key : String) (config : RateLimitConfig)
    (now : Nat) : MWOutcome × RLStore :=
  let r := isAllowed s key config now
  if r.1 then
    (MWOutcome.allowed (getRemainingRequests r.2 key config now)
      (getResetTime r.2 key now), r.2)
  else
    let resetTime := getResetTime r.2 key now
    (MWOutcome.denied ((resetTime - now + 999) / 1000) resetTime, r.2)

/-- The `rateLimits.search` configuration: a 5-minute window with
`maxRequests: 50`. -/
def searchConfig : RateLimitConfig := ⟨5 * 60 * 1000, 50⟩

/-- Consecutive requests for the same `key`, one per listed time: returns
the list of outcomes (in order) and the final store. -/
def runRequestsAt (s : RLStore) (key : String) (config : RateLimitConfig) :
    List Nat → List MWOutcome × RLStore
  | [] => ([], s)
  | t :: ts =>
    let r := middlewareStep s key config t
    let rest := runRequestsAt r.2 key config ts
    (r.1 :: rest.1, rest.2)

/-- Whether a middleware outcome let the request through. -/
def wasAllowed (o : MWOutcome) : Bool :=
  match o with
  | MWOutcome.allowed _ _ => true
  | MWOutcome.denied _ _ => false

/-! ## Content cache: `CacheService` (services/cacheService.ts) -/

/-- `CacheEntry<T>` from the cache service. -/
structure CacheEntry (α : Type) where
  data : α
  expiresAt : Nat
  createdAt : Nat
  accessCount : Nat
  lastAccessed : Nat
  deriving Repr, DecidableEq

/-- The cache's `Map<string, CacheEntry>`, in insertion order. -/
abbrev CacheStore (α : Type) := List (String × CacheEntry α)

/-- The loop body of `CacheService.evictOldest`: scan the entries in
iteration order, tracking `(oldestKey, oldestTime)`; an entry replaces the
candidate only when its `lastAccessed` is strictly smaller. -/
def scanOldest {α : Type} : CacheStore α → String × Nat → String × Nat
  | [], acc => acc
  | (k, e) :: rest, acc =>
    if e.lastAccessed < acc.2 then scanOldest rest (k, e.lastAccessed)
    else scanOldest rest acc

/-- `CacheService.evictOldest` at time `now`: the scan starts from
`oldestKey = ''` and `oldestTime = Date.now()`, and the winning key is
deleted only when it is a non-empty string. -/
def evictOldest {α : Type} (s : CacheStore α) (now : Nat) : CacheStore α :=
  let r := scanOldest s ("", now)
  if r.1 = "" then s else mapDelete s r.1

/-- `ttl || this.config.defaultTTL`: an absent or zero ttl falls back to the
configured default. -/
def ttlOrDefault (ttl : Option Nat) (defaultTTL : Nat) : Nat :=
  match ttl with
  | none => defaultTTL
  | some t => if t = 0 then defaultTTL else t

/-- `CacheService.set(key, data, ttl)` at time `now` with capacity
`maxSize`: evict the oldest entry when the store is at capacity, then store
a fresh entry with `expiresAt = now + ttl`. -/
def cacheSet {α : Type} (s : CacheStore α) (key : String) (data : α)
    (ttl : Option Nat) (defaultTTL maxSize now : Nat) : CacheStore α :=
  let s' := if s.length ≥ maxSize then evictOldest s now else s
  mapSet s' key ⟨data, now + ttlOrDefault ttl defaultTTL, now, 0, now⟩

/-- `CacheService.get(key)` at time `now`: an expired entry is deleted and
reported absent; a live entry has its access statistics updated. -/
def cacheGet {α : Type} (s : CacheStore α) (key : String) (now : Nat) :
    Option α × CacheStore α :=
  match mapGet s key with
  | none => (none, s)
  | some entry =>
    if now > entry.expiresAt then (none, mapDelete s key)
    else
      (some entry.data,
       mapSet s key { entry with
         accessCount := entry.accessCount + 1, lastAccessed := now })

/-! ## Session ledger: `UserSessionService` (services/userSessionService.ts) -/

/-- The fields of `SessionData` the ledger's control flow reads. -/
structure SessionData where
  lastActivity : Nat
  isActive : Bool
  deriving Repr, DecidableEq

/-- The ledger's `Map<string, SessionData>`. -/
abbrev SessionStore := List (String × SessionData)

/-- `UserSessionService.updateSessionActivity(sessionId)` at time `now`:
false when the session is unknown or marked inactive, else refresh
`lastActivity` and return true.  (No idle-expiry check is performed here.) -/
def updateSessionActivity (s : SessionStore) (sessionId : String)
    (now : Nat) : Bool × SessionStore :=
  match mapGet s sessionId with
  | none => (false, s)
  | some session =>
    if session.isActive then
      (true, mapSet s sessionId { session with lastActivity := now })
    else
      (false, s)

/-- `UserSessionService.getSession(sessionId)` at time `now` with the
configured `sessionTimeout`: absent when unknown or inactive; an entry idle
for longer than the timeout is deleted and reported absent; a successful
read refreshes `lastActivity`. -/
def getSession (s : SessionStore) (sessionId : String)
    (now sessionTimeout : Nat) : Option SessionData × SessionStore :=
  match mapGet s sessionId with
  | none => (none, s)
  | some session =>
    if ¬ session.isActive then (none, s)
    else if now - session.lastActivity > sessionTimeout then
      (none, mapDelete s sessionId)
    else
      let refreshed := { session with lastActivity := now }
      (some refreshed, mapSet s sessionId refreshed)

/-! ## Template usage aggregate (models/Analytics.ts, template schema) -/

/-- The `usage` sub-document of a template, with JS numbers as rationals. -/
structure TemplateUsage where
  totalUses : Nat
  successfulUses : Nat
  failedUses : Nat
  avgProcessingTime : ℚ
  deriving Repr, DecidableEq

/-- The first `templateSchema.methods.incrementUsage` definition (the one
that is later overridden): increments the matching counters and always
recomputes the average as
`(avg * (successfulUses - 1) + processingTime) / successfulUses`
with the post-increment `successfulUses`. -/
def incrementUsageFirstDef (u : TemplateUsage) (processingTime : ℚ)
    (success : Bool) : TemplateUsage :=
  let totalUses := u.totalUses + 1
  let su := if success then u.successfulUses + 1 else u.successfulUses
  let fu := if success then u.failedUses else u.failedUses + 1
  let avg := (u.avgProcessingTime * ((su : ℚ) - 1) + processingTime) / su
  ⟨totalUses, su, fu, avg⟩

/-- The second `templateSchema.methods.incrementUsage` definition — the one
that is effective at runtime, since a later assignment to
`templateSchema.methods.incrementUsage` replaces the earlier one.  Both
arguments are optional; `if (success)` and `if (processingTime)` are JS
truthiness tests, so an absent `success` counts as a failure and an absent
or zero `processingTime` skips the average update.  The average is
recomputed as `(avg * (totalUses - 1) + processingTime) / totalUses` with
the post-increment `totalUses`. -/
def incrementUsage (u : TemplateUsage) (processingTime : Option ℚ)
    (success : Option Bool) : TemplateUsage :=
  let totalUses := u.totalUses + 1
  let su := if success = some true then u.successfulUses + 1
            else u.successfulUses
  let fu := if success = some true then u.failedUses else u.failedUses + 1
  let avg :=
    match processingTime with
    | none => u.avgProcessingTime
    | some p =>
      if p = 0 then u.avgProcessingTime
      else (u.avgProcessingTime * ((totalUses : ℚ) - 1) + p) / totalUses
  ⟨totalUses, su, fu, avg⟩

/-- The template fields read and written by the pre-save hook. -/
structure TemplateDoc where
  successfulUses : Nat
  avgRating : ℚ
  popularityScore : ℚ
  feedbackRatings : List ℚ
  deriving Repr, DecidableEq

/-- The `templateSchema.pre('save')` hook: recomputes
`popularityScore = successfulUses * 0.7 + avgRating * 20 * 0.3` from the
stored `avgRating`, then recomputes `avgRating` from the user feedback when
any exists. -/
def preSaveHook (t : TemplateDoc) : TemplateDoc :=
  let score := (t.successfulUses : ℚ) * (7 / 10) + t.avgRating * 20 * (3 / 10)
  let avgRating' :=
    if t.feedbackRatings ≠ [] then
      t.feedbackRatings.sum / (t.feedbackRatings.length : ℚ)
    else t.avgRating
  { t with popularityScore := score, avgRating := avgRating' }

/-! ## Transformation pipeline: `EditHandler.editImage`
(the analytics-enabled handler variant, the one that records edit sessions).

The handler runs inside `asyncHandler`, so a thrown error reaches the
error-handling middleware, which always answers `{success:false, code}`.
Collaborator outcomes (image validation, template lookup in the database
and the template service, the object-store upload, the external
transformation call, and the analytics write) are supplied as an explicit
environment.  Session bookkeeping and logging are elided: they affect
neither the response nor the persisted records. -/

/-- The request fields the handler's control flow reads. -/
structure EditRequest where
  hasFile : Bool
  templateId : Option String
  deriving Repr, DecidableEq

/-- An error thrown during `editImage`.  `upstreamError name msg` is an
error object thrown by the object-store or transformation collaborator,
carrying its JS `name` property; the other constructors are the
`middleware/errorHandling` classes the handler itself throws. -/
inductive EditError where
  | validationError (msg : String)
  | notFoundError (resource : String)
  | fileProcessingError (msg : String)
  | externalServiceError (service msg : String)
  | upstreamError (name msg : String)
  deriving Repr, DecidableEq

/-- Status of a persisted `EditRecord`. -/
inductive RecStatus where
  | completed
  | failed
  deriving Repr, DecidableEq

/-- The externally observable side effects of one `editImage` call:
how many object-store uploads were attempted and which edit records were
persisted through `analyticsService.recordEditSession`. -/
structure Effects where
  uploads : Nat
  records : List RecStatus
  deriving Repr, DecidableEq

/-- Collaborator outcomes for one request. -/
structure PipelineEnv where
  validImage : Bool
  dbPrompt : Option String
  servicePrompt : Option String
  s3Upload : Except (String × String) String
  openaiEdit : Except (String × String) String
  analyticsOk : Bool
  deriving Repr

/-- JS truthiness of an optional string: `undefined`, `null` and `''` are
all falsy. -/
def jsTruthy (o : Option String) : Option String :=
  match o with
  | none => none
  | some s => if s = "" then none else some s

/-- The handler's catch block: an error whose `name` is
`'ExternalServiceError'` is rethrown as
`ExternalServiceError('OpenAI', message)`; every other error is rethrown
unchanged. -/
def catchRethrow (e : EditError) : EditError :=
  match e with
  | EditError.upstreamError n m =>
    if n = "ExternalServiceError" then EditError.externalServiceError "OpenAI" m
    else EditError.upstreamError n m
  | e => e

/-- `EditHandler.editImage` (analytics-enabled variant): validate the file
payload and `templateId`, validate and optimize the image, resolve the
template to a prompt (database first, then the template service), upload
the optimized source to the object store, call the external transformation
service, and on success persist a `completed` edit record (analytics
failures are swallowed).  Returns the result — the edited-image URL or the
thrown error — together with the observable side effects. -/
def editImage (req : EditRequest) (env : PipelineEnv) :
    Except EditError String × Effects :=
  if ¬ req.hasFile then
    (Except.error (EditError.validationError "No image file provided"), ⟨0, []⟩)
  else
    match jsTruthy req.templateId with
    | none =>
      (Except.error (EditError.validationError "Template ID is required"), ⟨0, []⟩)
    | some _tid =>
      if ¬ env.validImage then
        (Except.error (EditError.fileProcessingError "Invalid image file"), ⟨0, []⟩)
      else
        match (jsTruthy env.dbPrompt).orElse (fun _ => jsTruthy env.servicePrompt) with
        | none => (Except.error (EditError.notFoundError "Template"), ⟨0, []⟩)
        | some _prompt =>
          match env.s3Upload with
          | Except.error (n, m) =>
            (Except.error (catchRethrow (EditError.upstreamError n m)), ⟨1, []⟩)
          | Except.ok _url =>
            match env.openaiEdit with
            | Except.error (n, m) =>
              (Except.error (catchRethrow (EditError.upstreamError n m)), ⟨1, []⟩)
            | Except.ok editedUrl =>
              (Except.ok editedUrl,
               ⟨1, if env.analyticsOk then [RecStatus.completed] else []⟩)

/-- The `success` field of the user-visible response: the success handler
answers `success:true`; the error-handling middleware answers
`success:false` for every thrown error. -/
def responseSuccess (r : Except EditError String) : Bool :=
  match r with
  | Except.ok _ => true
  | Except.error _ => false

/-! ## Helper lemmas -/

theorem mapGet_mapSet_self {β : Type} (m : List (String × β)) (k : String)
    (v : β) : mapGet (mapSet m k v) k = some v := by
  induction m with
  | nil => simp [mapSet, mapGet]
  | cons x rest ih =>
    obtain ⟨k', v'⟩ := x
    by_cases h : k' = k
    · subst h; simp [mapSet, mapGet]
    · simp [mapSet, mapGet, h, ih]

theorem middlewareStep_empty (key : String) (cfg : RateLimitConfig)
    (t : Nat) :
    middlewareStep [] key cfg t =
      (MWOutcome.allowed (cfg.maxRequests - 1) (t + cfg.windowMs),
       [(key, ⟨1, t + cfg.windowMs⟩)]) := by
  have hnl : ¬ (t + cfg.windowMs < t) := by omega
  simp [middlewareStep, isAllowed, mapGet, mapSet, getRemainingRequests,
    getResetTime, hnl]

theorem middlewareStep_increments (key : String) (cfg : RateLimitConfig)
    (c R t : Nat) (ht : t ≤ R) (hc : c < cfg.maxRequests) :
    middlewareStep [(key, ⟨c, R⟩)] key cfg t =
      (MWOutcome.allowed (cfg.maxRequests - (c + 1)) R,
       [(key, ⟨c + 1, R⟩)]) := by
  have hnl : ¬ (R < t) := by omega
  have hnc : ¬ (c ≥ cfg.maxRequests) := by omega
  simp [middlewareStep, isAllowed, mapGet, mapSet, getRemainingRequests,
    getResetTime, hnl, hnc]

theorem isAllowed_denied (s : RLStore) (key : String)
    (cfg : RateLimitConfig) (now : Nat) (e : RateLimitEntry)
    (he : mapGet s key = some e) (hexp : now ≤ e.resetTime)
    (hcnt : cfg.maxRequests ≤ e.count) :
    isAllowed s key cfg now = (false, s) := by
  have hnl : ¬ (e.resetTime < now) := by omega
  simp [isAllowed, he, hnl, hcnt]

theorem middlewareStep_denied (s : RLStore) (key : String)
    (cfg : RateLimitConfig) (now : Nat) (e : RateLimitEntry)
    (he : mapGet s key = some e) (hexp : now ≤ e.resetTime)
    (hcnt : cfg.maxRequests ≤ e.count) :
    middlewareStep s key cfg now =
      (MWOutcome.denied ((e.resetTime - now + 999) / 1000) e.resetTime, s) := by
  simp [middlewareStep, isAllowed_denied s key cfg now e he hexp hcnt,
    getResetTime, he]

theorem runRequestsAt_filled (key : String) (cfg : RateLimitConfig)
    (R : Nat) (ts : List Nat) :
    ∀ (c : Nat), (∀ t ∈ ts, t ≤ R) → 1 ≤ c →
    c + ts.length ≤ cfg.maxRequests →
    (runRequestsAt [(key, ⟨c, R⟩)] key cfg ts).2 =
      [(key, ⟨c + ts.length, R⟩)] ∧
    ∀ o ∈ (runRequestsAt [(key, ⟨c, R⟩)] key cfg ts).1, wasAllowed o = true := by
  induction ts with
  | nil => intro c _ _ _; exact ⟨rfl, by simp [runRequestsAt]⟩
  | cons t ts ih =>
    intro c hts hc hle
    have ht : t ≤ R := hts t (List.mem_cons_self t ts)
    have hclt : c < cfg.maxRequests := by
      have := ts.length
      simp [List.length_cons] at hle
      omega
    have hstep := middlewareStep_increments key cfg c R t ht hclt
    have hrest := ih (c + 1)
      (fun x hx => hts x (List.mem_cons_of_mem t hx))
      (by omega) (by simp at hle ⊢; omega)
    constructor
    · simp only [runRequestsAt, hstep]
      rw [hrest.1]
      simp [List.length_cons]
      omega
    · intro o ho
      simp only [runRequestsAt, hstep] at ho
      rcases List.mem_cons.mp ho with h | h
      · subst h; rfl
      · exact hrest.2 o h

/-! ## Claim theorems: admission controller -/

/-- Claim C3, counterexample to the claim as stated: the denial response
does not carry `retryAfterMs = resetAt - now` in milliseconds.  With a
stored window at its limit resetting at 5000 and `now = 0`, the denial
carries `retryAfter = 5` (seconds, `Math.ceil((5000 - 0) / 1000)`), not
`5000`. -/
theorem retry_after_seconds_not_ms_cex :
    middlewareStep [("9.9.9.9:/api/edit", ⟨1, 5000⟩)] "9.9.9.9:/api/edit"
        ⟨3600000, 1⟩ 0 =
      (MWOutcome.denied 5 5000, [("9.9.9.9:/api/edit", ⟨1, 5000⟩)]) ∧
    (5 : Nat) ≠ 5000 - 0 :=
  ⟨rfl, by decide⟩

/-- Claim C3, amended: each admission call behaves as the claim's fixed
window algorithm states — no window or an expired window stores
`{count: 1, resetAt: now + W}` and allows; an unexpired window under the
limit increments and allows; an unexpired window at the limit denies
leaving the store unchanged — but the denial response carries
`retryAfter = ceil((resetAt - now) / 1000)`, whole seconds rounded up, not
`resetAt - now` milliseconds. -/
theorem admission_step_spec (s : RLStore) (key : String)
    (cfg : RateLimitConfig) (now : Nat) :
    (mapGet s key = none →
      middlewareStep s key cfg now =
        (MWOutcome.allowed (cfg.maxRequests - 1) (now + cfg.windowMs),
         mapSet s key ⟨1, now + cfg.windowMs⟩)) ∧
    (∀ e : RateLimitEntry, mapGet s key = some e → e.resetTime < now →
      middlewareStep s key cfg now =
        (MWOutcome.allowed (cfg.maxRequests - 1) (now + cfg.windowMs),
         mapSet s key ⟨1, now + cfg.windowMs⟩)) ∧
    (∀ e : RateLimitEntry, mapGet s key = some e → now ≤ e.resetTime →
      e.count < cfg.maxRequests →
      middlewareStep s key cfg now =
        (MWOutcome.allowed (cfg.maxRequests - (e.count + 1)) e.resetTime,
         mapSet s key ⟨e.count + 1, e.resetTime⟩)) ∧
    (∀ e : RateLimitEntry, mapGet s key = some e → now ≤ e.resetTime →
      cfg.maxRequests ≤ e.count →
      middlewareStep s key cfg now =
        (MWOutcome.denied ((e.resetTime - now + 999) / 1000) e.resetTime,
         s)) := by
  have hfresh : ¬ (now + cfg.windowMs < now) := by omega
  refine ⟨?_, ?_, ?_, ?_⟩
  · intro h
    simp [middlewareStep, isAllowed, h, getRemainingRequests, getResetTime,
      mapGet_mapSet_self, hfresh]
  · intro e he hexp
    simp [middlewareStep, isAllowed, he, hexp, getRemainingRequests,
      getResetTime, mapGet_mapSet_self, hfresh]
  · intro e he hexp hcnt
    have hnl : ¬ (e.resetTime < now) := by omega
    have hnc : ¬ (e.count ≥ cfg.maxRequests) := by omega
    simp [middlewareStep, isAllowed, he, hnl, hnc, getRemainingRequests,
      getResetTime, mapGet_mapSet_self]
  · intro e he hexp hcnt
    exact middlewareStep_denied s key cfg now e he hexp hcnt

/-- Witness for `admission_step_spec`: all four cases at concrete inputs. -/
theorem admission_step_spec_witness :
    middlewareStep [] "a:/x" ⟨1000, 2⟩ 5 =
      (MWOutcome.allowed 1 1005, [("a:/x", ⟨1, 1005⟩)]) ∧
    middlewareStep [("a:/x", ⟨2, 3⟩)] "a:/x" ⟨1000, 2⟩ 5 =
      (MWOutcome.allowed 1 1005, [("a:/x", ⟨1, 1005⟩)]) ∧
    middlewareStep [("a:/x", ⟨1, 9⟩)] "a:/x" ⟨1000, 2⟩ 5 =
      (MWOutcome.allowed 0 9, [("a:/x", ⟨2, 9⟩)]) ∧
    middlewareStep [("a:/x", ⟨2, 9⟩)] "a:/x" ⟨1000, 2⟩ 5 =
      (MWOutcome.denied 1 9, [("a:/x", ⟨2, 9⟩)]) :=
  ⟨(admission_step_spec [] "a:/x" ⟨1000, 2⟩ 5).1 rfl,
   (admission_step_spec [("a:/x", ⟨2, 3⟩)] "a:/x" ⟨1000, 2⟩ 5).2.1
     ⟨2, 3⟩ rfl (by decide),
   (admission_step_spec [("a:/x", ⟨1, 9⟩)] "a:/x" ⟨1000, 2⟩ 5).2.2.1
     ⟨1, 9⟩ rfl (by decide) (by decide),
   (admission_step_spec [("a:/x", ⟨2, 9⟩)] "a:/x" ⟨1000, 2⟩ 5).2.2.2
     ⟨2, 9⟩ rfl (by decide) (by decide)⟩

/-- Claim C9, counterexample to the claim as stated: with the source's
`rateLimits.search` configuration (`maxRequests: 50` per 5-minute window),
the 11th catalog-search request of the same caller within one window is
allowed, not denied. -/
theorem search_limit_not_ten_cex :
    ((runRequestsAt [] "203.0.113.7:/api/templates/search" searchConfig
        (List.replicate 11 0)).1.map wasAllowed) =
      List.replicate 11 true := by
  decide

/-- Claim C9, amended: the search operation class admits 50 requests per
identity per 5-minute window — for every caller key, a first call at `t0`
and 49 further calls within the window are all allowed, and a 51st call
made strictly before the window's reset instant is denied with a positive
`retryAfter` hint, leaving the window state unchanged. -/
theorem search_quota_fifty (key : String) (t0 : Nat) (ts : List Nat)
    (td : Nat) (hlen : ts.length = 49)
    (hts : ∀ t ∈ ts, t ≤ t0 + 300000) (htd : td < t0 + 300000) :
    wasAllowed (middlewareStep [] key searchConfig t0).1 = true ∧
    (∀ o ∈ (runRequestsAt (middlewareStep [] key searchConfig t0).2 key
        searchConfig ts).1, wasAllowed o = true) ∧
    (runRequestsAt (middlewareStep [] key searchConfig t0).2 key
        searchConfig ts).2 = [(key, ⟨50, t0 + 300000⟩)] ∧
    middlewareStep [(key, ⟨50, t0 + 300000⟩)] key searchConfig td =
      (MWOutcome.denied ((t0 + 300000 - td + 999) / 1000) (t0 + 300000),
       [(key, ⟨50, t0 + 300000⟩)]) ∧
    0 < (t0 + 300000 - td + 999) / 1000 := by
  have h1 : middlewareStep [] key searchConfig t0 =
      (MWOutcome.allowed (searchConfig.maxRequests - 1)
        (t0 + searchConfig.windowMs), [(key, ⟨1, t0 + searchConfig.windowMs⟩)]) :=
    middlewareStep_empty key searchConfig t0
  have hW : searchConfig.windowMs = 300000 := by decide
  have hM : searchConfig.maxRequests = 50 := by decide
  have hfill := runRequestsAt_filled key searchConfig (t0 + 300000) ts 1
    hts (by omega) (by rw [hM, hlen])
  rw [h1, hW]
  refine ⟨rfl, ?_, ?_, ?_, ?_⟩
  · intro o ho
    exact hfill.2 o ho
  · rw [hfill.1, hlen]
  · exact middlewareStep_denied _ key searchConfig td ⟨50, t0 + 300000⟩
      (by simp [mapGet]) (by show td ≤ t0 + 300000; omega) (by rw [hM])
  · have : 1000 ≤ t0 + 300000 - td + 999 := by omega
    omega

/-- Witness for `search_quota_fifty`: a concrete caller making 50 calls at
time 0 and a 51st at time 200000. -/
theorem search_quota_fifty_witness :
    wasAllowed (middlewareStep [] "198.51.100.4:/api/templates/search"
        searchConfig 0).1 = true ∧
    (∀ o ∈ (runRequestsAt (middlewareStep [] "198.51.100.4:/api/templates/search"
        searchConfig 0).2 "198.51.100.4:/api/templates/search" searchConfig
        (List.replicate 49 0)).1, wasAllowed o = true) ∧
    (runRequestsAt (middlewareStep [] "198.51.100.4:/api/templates/search"
        searchConfig 0).2 "198.51.100.4:/api/templates/search" searchConfig
        (List.replicate 49 0)).2 =
      [("198.51.100.4:/api/templates/search", ⟨50, 300000⟩)] ∧
    middlewareStep [("198.51.100.4:/api/templates/search", ⟨50, 300000⟩)]
        "198.51.100.4:/api/templates/search" searchConfig 200000 =
      (MWOutcome.denied ((0 + 300000 - 200000 + 999) / 1000) (0 + 300000),
       [("198.51.100.4:/api/templates/search", ⟨50, 300000⟩)]) ∧
    0 < (0 + 300000 - 200000 + 999) / 1000 := by
  have h := search_quota_fifty "198.51.100.4:/api/templates/search" 0
    (List.replicate 49 0) 200000 (by decide)
    (by intro t ht; simp [List.eq_of_mem_replicate ht]) (by decide)
  simpa using h

/-- Claim C10: a denied admission check leaves the admission-controller
state unchanged — when the stored window for the key is unexpired and at
its limit, `isAllowed` returns false with the whole store (every window)
untouched, and the middleware denial path performs no further mutation. -/
theorem denied_admission_frame (s : RLStore) (key : String)
    (cfg : RateLimitConfig) (now : Nat) (e : RateLimitEntry)
    (he : mapGet s key = some e) (hexp : now ≤ e.resetTime)
    (hcnt : cfg.maxRequests ≤ e.count) :
    isAllowed s key cfg now = (false, s) ∧
    (middlewareStep s key cfg now).2 = s := by
  refine ⟨isAllowed_denied s key cfg now e he hexp hcnt, ?_⟩
  rw [middlewareStep_denied s key cfg now e he hexp hcnt]

/-- Witness for `denied_admission_frame`: a two-window store in which the
denied key's window and the unrelated window both survive unchanged. -/
theorem denied_admission_frame_witness :
    isAllowed [("a:/x", ⟨5, 900⟩), ("b:/y", ⟨1, 900⟩)] "a:/x" ⟨1000, 5⟩ 100 =
      (false, [("a:/x", ⟨5, 900⟩), ("b:/y", ⟨1, 900⟩)]) ∧
    (middlewareStep [("a:/x", ⟨5, 900⟩), ("b:/y", ⟨1, 900⟩)] "a:/x"
        ⟨1000, 5⟩ 100).2 = [("a:/x", ⟨5, 900⟩), ("b:/y", ⟨1, 900⟩)] :=
  denied_admission_frame [("a:/x", ⟨5, 900⟩), ("b:/y", ⟨1, 900⟩)] "a:/x"
    ⟨1000, 5⟩ 100 ⟨5, 900⟩ rfl (by decide) (by decide)

/-! ## Claim theorems: content cache -/

theorem scanOldest_no_update {α : Type} (l : CacheStore α) (bk : String)
    (bt : Nat) (h : ∀ x ∈ l, bt ≤ x.2.lastAccessed) :
    scanOldest l (bk, bt) = (bk, bt) := by
  induction l with
  | nil => rfl
  | cons x rest ih =>
    obtain ⟨k, e⟩ := x
    have hx : bt ≤ e.lastAccessed := h (k, e) (List.mem_cons_self _ _)
    simp only [scanOldest]
    rw [if_neg (by omega)]
    exact ih (fun y hy => h y (List.mem_cons_of_mem _ hy))

theorem scanOldest_first {α : Type} (p : CacheStore α) (k₀ : String)
    (e₀ : CacheEntry α) (q : CacheStore α) :
    ∀ (bk : String) (bt : Nat),
    (∀ x ∈ p, e₀.lastAccessed < x.2.lastAccessed) →
    (∀ x ∈ q, e₀.lastAccessed ≤ x.2.lastAccessed) →
    e₀.lastAccessed < bt →
    scanOldest (p ++ (k₀, e₀) :: q) (bk, bt) = (k₀, e₀.lastAccessed) := by
  induction p with
  | nil =>
    intro bk bt _ hq hbt
    simp only [List.nil_append, scanOldest]
    rw [if_pos hbt]
    exact scanOldest_no_update q k₀ e₀.lastAccessed hq
  | cons x rest ih =>
    intro bk bt hp hq hbt
    obtain ⟨k, e⟩ := x
    have hx : e₀.lastAccessed < e.lastAccessed :=
      hp (k, e) (List.mem_cons_self _ _)
    simp only [List.cons_append, scanOldest]
    by_cases h : e.lastAccessed < bt
    · rw [if_pos h]
      exact ih k e.lastAccessed
        (fun y hy => hp y (List.mem_cons_of_mem _ hy)) hq hx
    · rw [if_neg h]
      exact ih bk bt (fun y hy => hp y (List.mem_cons_of_mem _ hy)) hq hbt

theorem mapDelete_append {β : Type} (p q : List (String × β)) (k₀ : String)
    (v₀ : β) (h : ∀ x ∈ p, x.1 ≠ k₀) :
    mapDelete (p ++ (k₀, v₀) :: q) k₀ = p ++ q := by
  induction p with
  | nil => simp [mapDelete]
  | cons x rest ih =>
    obtain ⟨k, v⟩ := x
    have hk : k ≠ k₀ := h (k, v) (List.mem_cons_self _ _)
    simp only [List.cons_append, mapDelete]
    rw [if_neg hk]
    exact congrArg (List.cons (k, v))
      (ih (fun y hy => h y (List.mem_cons_of_mem _ hy)))

theorem evictOldest_removes_first_min {α : Type} (p q : CacheStore α)
    (k₀ : String) (e₀ : CacheEntry α) (now : Nat)
    (hp : ∀ x ∈ p, e₀.lastAccessed < x.2.lastAccessed)
    (hq : ∀ x ∈ q, e₀.lastAccessed ≤ x.2.lastAccessed)
    (hnow : e₀.lastAccessed < now) (hk : k₀ ≠ "")
    (hkp : ∀ x ∈ p, x.1 ≠ k₀) :
    evictOldest (p ++ (k₀, e₀) :: q) now = p ++ q := by
  unfold evictOldest
  rw [scanOldest_first p k₀ e₀ q "" now hp hq hnow]
  simp only []
  rw [if_neg hk]
  exact mapDelete_append p q k₀ e₀ hkp

/-- Claim C4, counterexample to the claim as stated: `evictOldest` only
replaces its candidate when `lastAccessed` is strictly below the running
best, which starts at `Date.now()`.  A store at capacity 1 whose single
(least-recently-accessed) entry was accessed at the same millisecond as
the insertion is therefore not evicted: the new key is appended and the
store exceeds its capacity, the old entry still present. -/
theorem lru_eviction_same_instant_cex :
    cacheSet ([("a", ⟨0, 100, 10, 0, 10⟩)] : CacheStore Nat) "b" 1
        (some 50) 600000 1 10 =
      [("a", ⟨0, 100, 10, 0, 10⟩), ("b", ⟨1, 60, 10, 0, 10⟩)] ∧
    mapGet (cacheSet ([("a", ⟨0, 100, 10, 0, 10⟩)] : CacheStore Nat) "b" 1
        (some 50) 600000 1 10) "a" = some ⟨0, 100, 10, 0, 10⟩ := by
  exact ⟨rfl, rfl⟩

/-- Claim C4, amended: on `set` with the store at its configured capacity,
the entry with the least recent `lastAccessedAt` (ties broken by insertion
order: the first entry attaining the minimum) is evicted before the new
entry is inserted, provided that entry's key is a non-empty string and its
`lastAccessedAt` is strictly earlier than the current time; the store is
written as `p ++ (k₀, e₀) :: q` where every entry of `p` was accessed
strictly later than `e₀` and every entry of `q` no earlier than `e₀`. -/
theorem cacheSet_evicts_first_min {α : Type} (p q : CacheStore α)
    (k₀ : String) (e₀ : CacheEntry α) (key : String) (data : α)
    (ttl : Option Nat) (dTTL maxSize now : Nat)
    (hcap : maxSize ≤ (p ++ (k₀, e₀) :: q).length)
    (hp : ∀ x ∈ p, e₀.lastAccessed < x.2.lastAccessed)
    (hq : ∀ x ∈ q, e₀.lastAccessed ≤ x.2.lastAccessed)
    (hnow : e₀.lastAccessed < now) (hk : k₀ ≠ "")
    (hkp : ∀ x ∈ p, x.1 ≠ k₀) :
    cacheSet (p ++ (k₀, e₀) :: q) key data ttl dTTL maxSize now =
      mapSet (p ++ q) key
        ⟨data, now + ttlOrDefault ttl dTTL, now, 0, now⟩ := by
  unfold cacheSet
  rw [if_pos hcap]
  rw [evictOldest_removes_first_min p q k₀ e₀ now hp hq hnow hk hkp]

/-- Witness for `cacheSet_evicts_first_min`: a two-entry store at capacity
2; the second entry is the least recently accessed and is evicted. -/
theorem cacheSet_evicts_first_min_witness :
    cacheSet ([("x", ⟨10, 900, 1, 2, 8⟩), ("y", ⟨20, 900, 1, 0, 3⟩)] :
        CacheStore Nat) "z" 30 (some 100) 600000 2 9 =
      mapSet [("x", ⟨10, 900, 1, 2, 8⟩)] "z"
        ⟨30, 9 + ttlOrDefault (some 100) 600000, 9, 0, 9⟩ :=
  cacheSet_evicts_first_min [("x", ⟨10, 900, 1, 2, 8⟩)] [] "y"
    ⟨20, 900, 1, 0, 3⟩ "z" 30 (some 100) 600000 2 9
    (by decide) (by decide) (by decide) (by decide) (by decide) (by decide)

/-- Claim C5: for every `ttl > 0`, a value set at `t0` with no intervening
delete, overwrite, or eviction of its key is retrievable at every
`t0 + ttl - ε` and absent at every `t0 + ttl + ε` (`0 < ε ≤ ttl`, so the
read does not precede the write). -/
theorem cache_ttl_boundary {α : Type} (s : CacheStore α) (key : String)
    (data : α) (ttl dTTL maxSize t0 ε : Nat) (h1 : 0 < ttl) (h2 : 0 < ε)
    (h3 : ε ≤ ttl) :
    (cacheGet (cacheSet s key data (some ttl) dTTL maxSize t0) key
      (t0 + ttl - ε)).1 = some data ∧
    (cacheGet (cacheSet s key data (some ttl) dTTL maxSize t0) key
      (t0 + ttl + ε)).1 = none := by
  have hset : mapGet (cacheSet s key data (some ttl) dTTL maxSize t0) key
      = some ⟨data, t0 + ttl, t0, 0, t0⟩ := by
    unfold cacheSet
    have h0 : ttl ≠ 0 := by omega
    have : ttlOrDefault (some ttl) dTTL = ttl := by
      simp [ttlOrDefault, h0]
    rw [this]
    exact mapGet_mapSet_self _ key _
  have hlive : ¬ (t0 + ttl - ε > t0 + ttl) := by omega
  have hdead : t0 + ttl + ε > t0 + ttl := by omega
  constructor
  · simp [cacheGet, hset, hlive]
  · simp [cacheGet, hset, hdead]

/-- Witness for `cache_ttl_boundary`: ttl 1000 at t0 = 5, probe ε = 1. -/
theorem cache_ttl_boundary_witness :
    (cacheGet (cacheSet ([] : CacheStore Nat) "k" 7 (some 1000) 600000
      600000 5) "k" (5 + 1000 - 1)).1 = some 7 ∧
    (cacheGet (cacheSet ([] : CacheStore Nat) "k" 7 (some 1000) 600000
      600000 5) "k" (5 + 1000 + 1)).1 = none :=
  cache_ttl_boundary [] "k" 7 1000 600000 600000 5 1
    (by decide) (by decide) (by decide)

/-! ## Claim theorems: session ledger -/

/-- Claim C6, counterexample to the claim as stated: a session idle longer
than `sessionTimeout` (24h) is expired — `getSession` reports it absent —
yet `updateSessionActivity` still returns true and refreshes it, because
the touch operation checks only existence and `isActive`, never idle
expiry. -/
theorem touch_ignores_expiry_cex :
    (getSession [("s", ⟨0, true⟩)] "s" 86400001 86400000).1 = none ∧
    updateSessionActivity [("s", ⟨0, true⟩)] "s" 86400001 =
      (true, [("s", ⟨86400001, true⟩)]) :=
  ⟨rfl, rfl⟩

/-- Claim C6, amended: `updateSessionActivity` returns false exactly when
the sessionId is unknown or its session is marked inactive; it performs no
idle-expiry check (an expired-but-unswept session is refreshed); when it
returns true it refreshes the session's `lastActivity` to the current
time. -/
theorem updateSessionActivity_spec (s : SessionStore) (sid : String)
    (now : Nat) :
    (mapGet s sid = none → updateSessionActivity s sid now = (false, s)) ∧
    (∀ sess : SessionData, mapGet s sid = some sess →
      sess.isActive = false →
      updateSessionActivity s sid now = (false, s)) ∧
    (∀ sess : SessionData, mapGet s sid = some sess →
      sess.isActive = true →
      updateSessionActivity s sid now =
        (true, mapSet s sid ⟨now, true⟩)) := by
  refine ⟨?_, ?_, ?_⟩
  · intro h
    simp [updateSessionActivity, h]
  · intro sess hs hi
    simp [updateSessionActivity, hs, hi]
  · intro sess hs hi
    simp [updateSessionActivity, hs, hi]

/-- Witness for `updateSessionActivity_spec`: the inactive and active
cases at concrete stores. -/
theorem updateSessionActivity_spec_witness :
    updateSessionActivity [("a", ⟨10, false⟩)] "a" 99 =
      (false, [("a", ⟨10, false⟩)]) ∧
    updateSessionActivity [("a", ⟨10, true⟩)] "a" 99 =
      (true, mapSet [("a", ⟨10, true⟩)] "a" ⟨99, true⟩) :=
  ⟨(updateSessionActivity_spec [("a", ⟨10, false⟩)] "a" 99).2.1
     ⟨10, false⟩ rfl rfl,
   (updateSessionActivity_spec [("a", ⟨10, true⟩)] "a" 99).2.2
     ⟨10, true⟩ rfl rfl⟩

/-! ## Claim theorems: template usage aggregate -/

/-- Claim C2, counterexample to the claim as stated: for a template with
`totalUses = 1`, `successfulUses = 0`, `avgProcessingTime = 100`, a
successful use with duration 50 yields `avgProcessingTime = 75` under the
effective (second, overriding) `incrementUsage` — the claimed formula over
the post-increment successful-use count (here 1) would give 50. -/
theorem incrementUsage_formula_cex :
    incrementUsage ⟨1, 0, 1, 100⟩ (some 50) (some true) =
      ⟨2, 1, 1, 75⟩ ∧
    (100 * (((1 : ℚ)) - 1) + 50) / 1 = 50 ∧
    (75 : ℚ) ≠ 50 := by
  refine ⟨?_, by norm_num, by norm_num⟩
  simp only [incrementUsage]
  norm_num

/-- Claim C2, amended: the effective `incrementUsage` method (the second
definition of `templateSchema.methods.incrementUsage`, which overrides the
first) increments `totalUses` and `successfulUses` on success and, for a
nonzero duration, updates the running average by
`avg' = (avg * (totalUses' - 1) + durationMs) / totalUses'` where
`totalUses'` is the post-increment total-use count — the average is taken
over all uses, not over successful uses. -/
theorem incrementUsage_avg_over_total_uses (u : TemplateUsage) (d : ℚ)
    (hd : d ≠ 0) :
    incrementUsage u (some d) (some true) =
      ⟨u.totalUses + 1, u.successfulUses + 1, u.failedUses,
       (u.avgProcessingTime * u.totalUses + d) / (u.totalUses + 1)⟩ := by
  simp only [incrementUsage, hd, if_neg, reduceIte]
  refine congrArg (TemplateUsage.mk _ _ _) ?_
  push_cast
  ring_nf

/-- Witness for `incrementUsage_avg_over_total_uses`: totalUses 3 →
avg (10 * 3 + 6) / 4 = 9. -/
theorem incrementUsage_avg_over_total_uses_witness :
    incrementUsage ⟨3, 2, 1, 10⟩ (some 6) (some true) =
      ⟨3 + 1, 2 + 1, 1, ((10 : ℚ) * 3 + 6) / (3 + 1)⟩ := by
  have h := incrementUsage_avg_over_total_uses ⟨3, 2, 1, 10⟩ 6
    (by norm_num)
  simpa using h

/-- Claim C8: for two templates with identical stored `avgRating`, if A
has strictly more `successfulUses` than B, then after the pre-save hook
recomputes `popularityScore = successfulUses * 0.7 + avgRating * 20 * 0.3`,
A's score is strictly greater than B's. -/
theorem popularity_score_monotone (A B : TemplateDoc)
    (hr : A.avgRating = B.avgRating)
    (hsu : B.successfulUses < A.successfulUses) :
    (preSaveHook B).popularityScore < (preSaveHook A).popularityScore := by
  simp only [preSaveHook]
  rw [hr]
  have hq : (B.successfulUses : ℚ) < (A.successfulUses : ℚ) := by
    exact_mod_cast hsu
  have h7 : (0 : ℚ) < 7 / 10 := by norm_num
  nlinarith

/-- Witness for `popularity_score_monotone`: ratings equal at 4,
successful uses 5 versus 3. -/
theorem popularity_score_monotone_witness :
    (preSaveHook ⟨3, 4, 0, []⟩).popularityScore <
      (preSaveHook ⟨5, 4, 0, []⟩).popularityScore :=
  popularity_score_monotone ⟨5, 4, 0, []⟩ ⟨3, 4, 0, []⟩ rfl (by decide)

/-! ## Claim theorems: transformation pipeline -/

/-- Claim C7: a transform request whose file payload passes validation but
whose templateId resolves to no template — in neither the database nor the
template service — fails with `NotFoundError` with zero object-store
uploads attempted and no `EditRecord` persisted. -/
theorem notfound_short_circuits_pipeline (req : EditRequest)
    (env : PipelineEnv) (tid : String) (hfile : req.hasFile = true)
    (htid : req.templateId = some tid) (htne : tid ≠ "")
    (hvalid : env.validImage = true)
    (hdb : jsTruthy env.dbPrompt = none)
    (hsvc : jsTruthy env.servicePrompt = none) :
    editImage req env =
      (Except.error (EditError.notFoundError "Template"), ⟨0, []⟩) := by
  have htid' : jsTruthy req.templateId = some tid := by
    rw [htid]; simp [jsTruthy, htne]
  simp only [editImage, hfile, hvalid, htid', hdb, hsvc]
  simp [Option.orElse]

/-- Witness for `notfound_short_circuits_pipeline`: a valid upload with an
unknown templateId. -/
theorem notfound_short_circuits_pipeline_witness :
    editImage ⟨true, some "t404"⟩
        ⟨true, none, none, Except.ok "https://store/u.jpg",
         Except.ok "https://store/e.jpg", true⟩ =
      (Except.error (EditError.notFoundError "Template"), ⟨0, []⟩) :=
  notfound_short_circuits_pipeline ⟨true, some "t404"⟩
    ⟨true, none, none, Except.ok "https://store/u.jpg",
     Except.ok "https://store/e.jpg", true⟩ "t404"
    rfl rfl (by decide) rfl rfl rfl

/-- Claim C1, counterexample to the claim as stated: a valid request with
a resolvable template whose object-store upload succeeds but whose
external transformation call fails produces a `success:false` response,
yet the list of records persisted through the analytics collaborator is
empty — no `failed` `EditRecord` is recorded, because
`recordEditSession` is invoked only on the success path and the catch
block merely logs and rethrows. -/
theorem upstream_failure_no_failed_record_cex :
    editImage ⟨true, some "t1"⟩
        ⟨true, none, some "style prompt", Except.ok "https://store/u.jpg",
         Except.error ("Error", "OpenAI request timed out"), true⟩ =
      (Except.error (EditError.upstreamError "Error"
         "OpenAI request timed out"), ⟨1, []⟩) ∧
    responseSuccess (editImage ⟨true, some "t1"⟩
        ⟨true, none, some "style prompt", Except.ok "https://store/u.jpg",
         Except.error ("Error", "OpenAI request timed out"), true⟩).1 =
      false ∧
    RecStatus.failed ∉ (editImage ⟨true, some "t1"⟩
        ⟨true, none, some "style prompt", Except.ok "https://store/u.jpg",
         Except.error ("Error", "OpenAI request timed out"), true⟩).2.records :=
  ⟨rfl, rfl, by decide⟩

/-- Claim C1, amended: when a valid request with a resolvable template has
a successful object-store upload and a failed external transformation
call, the user-visible response is a generic failure (`success:false`),
but no `EditRecord` at all is persisted via the analytics collaborator —
in particular no terminal `failed` record with an `errorReason`; the only
observable effect is the single completed upload. -/
theorem upstream_failure_generic_response_no_record (req : EditRequest)
    (env : PipelineEnv) (tid p url n m : String)
    (hfile : req.hasFile = true) (htid : req.templateId = some tid)
    (htne : tid ≠ "") (hvalid : env.validImage = true)
    (hp : (jsTruthy env.dbPrompt).orElse
      (fun _ => jsTruthy env.servicePrompt) = some p)
    (hs3 : env.s3Upload = Except.ok url)
    (hai : env.openaiEdit = Except.error (n, m)) :
    responseSuccess (editImage req env).1 = false ∧
    (editImage req env).2 = ⟨1, []⟩ := by
  have htid' : jsTruthy req.templateId = some tid := by
    rw [htid]; simp [jsTruthy, htne]
  simp only [editImage, hfile, hvalid, htid', hp, hs3, hai]
  simp [responseSuccess]

/-- Witness for `upstream_failure_generic_response_no_record`: a concrete
timed-out transformation call after a successful upload. -/
theorem upstream_failure_generic_response_no_record_witness :
    responseSuccess (editImage ⟨true, some "t2"⟩
        ⟨true, some "db prompt", none, Except.ok "https://store/v.jpg",
         Except.error ("ExternalServiceError", "timeout"), true⟩).1 =
      false ∧
    (editImage ⟨true, some "t2"⟩
        ⟨true, some "db prompt", none, Except.ok "https://store/v.jpg",
         Except.error ("ExternalServiceError", "timeout"), true⟩).2 =
      ⟨1, []⟩ :=
  upstream_failure_generic_response_no_record ⟨true, some "t2"⟩
    ⟨true, some "db prompt", none, Except.ok "https://store/v.jpg",
     Except.error ("ExternalServiceError", "timeout"), true⟩
    "t2" "db prompt" "https://store/v.jpg" "ExternalServiceError" "timeout"
    rfl rfl (by decide) rfl rfl rfl rfl

end Morpho
